import Mathlib

/-
Verification development for the heist-engine repository.

This file gives a shallow embedding of the pure logic of the repository's
Python modules and proves the specification claims about them.

Modelling conventions:
- Python floats are modelled as exact rationals (ℚ).  All branch conditions in
  the embedded code compare quantities that the source manipulates with plain
  arithmetic, so rational arithmetic is the intended idealisation.
- Python datetimes are modelled as rational timestamps (seconds).
- Python dicts are modelled as association lists with a lookup/insert
  discipline equal to dict semantics (one binding per key).
- Python sets are modelled as lists of distinct elements; where the source
  relies on a set's iteration order (which CPython leaves arbitrary for
  strings under hash randomisation), the enumeration is an explicit parameter.
- Asynchronous collaborator calls (RPC / HTTP APIs) are modelled as oracle
  function parameters that return the data the collaborator would produce
  together with the number of collaborator calls issued.
-/

/-- Python str.lower() restricted to the ASCII strings the embedded code
compares (chain names and the hype lexicon): lower-case every character. -/
def pyLower (s : String) : String := String.mk (s.data.map Char.toLower)

namespace TheEye

/-- Risk assessment levels (the_eye.py, class RiskLevel). -/
inductive RiskLevel where
  | SAFE
  | LOW
  | MEDIUM
  | HIGH
  | CRITICAL
deriving DecidableEq

/-- Individual security check result (the_eye.py, dataclass SecurityCheck). -/
structure SecurityCheck where
  name : String
  passed : Bool
  score : ℚ
  details : String
  severity : RiskLevel := RiskLevel.LOW
deriving DecidableEq

/-- Complete audit result for a token contract (the_eye.py, dataclass
ContractAudit).  The fields kept here are the ones read or written by the
audited logic; `raw_data` and the token/economic detail fields that no claim
touches are carried as in the source where they matter (`is_honeypot` feeds
the safety verdict). -/
structure ContractAudit where
  contract_address : String
  chain : String
  timestamp : ℚ := 0
  is_safe : Bool := false
  safety_score : ℚ := 0
  risk_level : RiskLevel := RiskLevel.CRITICAL
  checks : List SecurityCheck := []
  token_name : Option String := none
  token_symbol : Option String := none
  is_honeypot : Bool := true
  liquidity_usd : ℚ := 0
  buy_tax : ℚ := 100
  sell_tax : ℚ := 100
deriving DecidableEq

/-- Configuration of The Eye (the_eye.py, class EyeConfig); defaults follow
the source defaults. -/
structure EyeConfig where
  MIN_SAFETY_SCORE : ℚ := 80
  SIMULATION_MODE : Bool := false
deriving DecidableEq

/-- TheEye._calculate_safety_score (the_eye.py lines 613-649): average the
check scores, band the risk level, and derive the safe verdict, which
requires the score threshold, zero failed CRITICAL checks, and a
non-honeypot verdict. -/
def calculateSafetyScore (cfg : EyeConfig) (audit : ContractAudit) : ContractAudit :=
  if audit.checks = [] then
    { audit with safety_score := 0, risk_level := RiskLevel.CRITICAL, is_safe := false }
  else
    let total_score : ℚ := (audit.checks.map SecurityCheck.score).sum
    let safety_score : ℚ := total_score / (audit.checks.length : ℚ)
    let risk_level :=
      if 90 ≤ safety_score then RiskLevel.SAFE
      else if 70 ≤ safety_score then RiskLevel.LOW
      else if 50 ≤ safety_score then RiskLevel.MEDIUM
      else if 30 ≤ safety_score then RiskLevel.HIGH
      else RiskLevel.CRITICAL
    let critical_failures :=
      audit.checks.filter (fun check => !check.passed && check.severity == RiskLevel.CRITICAL)
    let is_safe :=
      decide (cfg.MIN_SAFETY_SCORE ≤ safety_score)
        && critical_failures.length == 0
        && !audit.is_honeypot
    { audit with safety_score := safety_score, risk_level := risk_level, is_safe := is_safe }

/-- The audit cache (the_eye.py, `self.audit_cache: Dict[str, ContractAudit]`),
keyed by the pair (chain, contract_address) that the source serialises as the
string "chain:address". -/
abbrev AuditCache := List ((String × String) × ContractAudit)

/-- Dict insertion: one binding per key. -/
def cacheInsert (cache : AuditCache) (k : String × String) (v : ContractAudit) : AuditCache :=
  (k, v) :: cache.filter (fun p => p.1 ≠ k)

/-- The fresh audit object audit_contract builds before dispatching to a
chain analyzer (the_eye.py lines 268-271): everything at its default-unsafe
value, stamped with the call time. -/
def freshAudit (contract_address chain : String) (now : ℚ) : ContractAudit :=
  { contract_address := contract_address, chain := chain, timestamp := now }

/-- Result of one call to audit_contract: the audit returned, the cache
afterwards, and how many collaborator (RPC/API) calls were issued. -/
structure AuditOutcome where
  audit : ContractAudit
  cache : AuditCache
  collaboratorCalls : Nat
deriving DecidableEq

/-- TheEye.audit_contract (the_eye.py lines 241-308).  `simulateAudit` is the
oracle for the randomised `_simulate_audit` path; `analyzeEthereum` and
`analyzeSolana` are oracles for `_audit_ethereum_contract` and
`_audit_solana_contract`, returning the audit they populate and the number of
collaborator calls issued.  A cache entry younger than 300 seconds is
returned as is; an unsupported chain returns the fresh default-unsafe audit
without caching it. -/
def auditContract (cfg : EyeConfig)
    (simulateAudit : String → String → ContractAudit)
    (analyzeEthereum analyzeSolana : ContractAudit → ContractAudit × Nat)
    (cache : AuditCache) (contract_address chain : String) (now : ℚ) : AuditOutcome :=
  if cfg.SIMULATION_MODE then
    { audit := simulateAudit contract_address chain, cache := cache, collaboratorCalls := 0 }
  else
    let cache_key := (chain, contract_address)
    let hit : Option ContractAudit :=
      match cache.lookup cache_key with
      | some cached => if now - cached.timestamp < 300 then some cached else none
      | none => none
    match hit with
    | some cached => { audit := cached, cache := cache, collaboratorCalls := 0 }
    | none =>
      let audit0 : ContractAudit := freshAudit contract_address chain now
      if pyLower chain = "ethereum" then
        let analyzed := analyzeEthereum audit0
        let final := calculateSafetyScore cfg analyzed.1
        { audit := final, cache := cacheInsert cache cache_key final,
          collaboratorCalls := analyzed.2 }
      else if pyLower chain = "solana" then
        let analyzed := analyzeSolana audit0
        let final := calculateSafetyScore cfg analyzed.1
        { audit := final, cache := cacheInsert cache cache_key final,
          collaboratorCalls := analyzed.2 }
      else
        { audit := audit0, cache := cache, collaboratorCalls := 0 }

end TheEye

namespace TheHand

/-- Trade execution status (the_hand.py, class TradeStatus). -/
inductive TradeStatus where
  | PENDING
  | EXECUTING
  | OPEN
  | CLOSED
  | FAILED
  | CANCELLED
deriving DecidableEq

/-- Reason for closing a position (the_hand.py, class ExitReason). -/
inductive ExitReason where
  | PROFIT_TARGET
  | STOP_LOSS
  | TRAILING_STOP
  | TIME_LIMIT
  | MANUAL
  | EMERGENCY
deriving DecidableEq

/-- An open trading position (the_hand.py, dataclass Position). -/
structure Position where
  position_id : String
  contract_address : String
  chain : String
  token_symbol : String
  entry_time : ℚ := 0
  entry_price : ℚ := 0
  entry_amount_usd : ℚ := 0
  entry_amount_tokens : ℚ := 0
  entry_tx_hash : Option String := none
  current_price : ℚ := 0
  current_value_usd : ℚ := 0
  peak_price : ℚ := 0
  exit_time : Option ℚ := none
  exit_price : Option ℚ := none
  exit_amount_usd : Option ℚ := none
  exit_tx_hash : Option String := none
  exit_reason : Option ExitReason := none
  profit_loss_usd : ℚ := 0
  profit_loss_percent : ℚ := 0
  status : TradeStatus := TradeStatus.PENDING
deriving DecidableEq

/-- Position.update_current_price (the_hand.py lines 144-158): refresh the
current price and value, ratchet the peak price, and recompute P&L; the
percentage falls back to 0 unless the entry amount is positive. -/
def Position.update_current_price (p : Position) (price : ℚ) : Position :=
  let current_value_usd := p.entry_amount_tokens * price
  { p with
    current_price := price
    current_value_usd := current_value_usd
    peak_price := if p.peak_price < price then price else p.peak_price
    profit_loss_usd := current_value_usd - p.entry_amount_usd
    profit_loss_percent :=
      if 0 < p.entry_amount_usd then (current_value_usd / p.entry_amount_usd - 1) * 100
      else 0 }

/-- Position.should_take_profit (the_hand.py lines 160-162). -/
def Position.should_take_profit (p : Position) (target_percent : ℚ) : Bool :=
  target_percent ≤ p.profit_loss_percent

/-- Position.should_stop_loss (the_hand.py lines 164-166). -/
def Position.should_stop_loss (p : Position) (stop_percent : ℚ) : Bool :=
  p.profit_loss_percent ≤ -stop_percent

/-- Position.should_trailing_stop (the_hand.py lines 168-174): guarded so a
non-positive peak never reaches the division by the peak price. -/
def Position.should_trailing_stop (p : Position) (trailing_percent : ℚ) : Bool :=
  if p.peak_price ≤ 0 then false
  else trailing_percent ≤ ((p.peak_price - p.current_price) / p.peak_price) * 100

/-- Position.should_time_exit (the_hand.py lines 176-182); `now` stands for
datetime.now() and hours are converted to seconds. -/
def Position.should_time_exit (p : Position) (max_hours : Int) (now : ℚ) : Bool :=
  if max_hours ≤ 0 then false
  else (max_hours : ℚ) * 3600 < now - p.entry_time

/-- Result of a trade execution (the_hand.py, dataclass TradeResult). -/
structure TradeResult where
  success : Bool
  position : Option Position := none
  error_message : Option String := none
  tx_hash : Option String := none
deriving DecidableEq

/-- Configuration of The Hand (the_hand.py, class HandConfig); defaults
follow the source env-var defaults. -/
structure HandConfig where
  TRADE_AMOUNT_USD : ℚ := 10
  PROFIT_TARGET_PERCENT : ℚ := 500
  STOP_LOSS_PERCENT : ℚ := 50
  TRAILING_STOP_PERCENT : ℚ := 20
  MAX_HOLD_TIME_HOURS : Int := 24
  MAX_POSITIONS : Nat := 5
  DRY_RUN_MODE : Bool := true
deriving DecidableEq

/-- Mutable trading state of TheHand: the open-position dict keyed by
position id, the append-only closed history, and the aggregate counters. -/
structure HandState where
  open_positions : List (String × Position) := []
  closed_positions : List Position := []
  total_trades : Nat := 0
  winning_trades : Nat := 0
  losing_trades : Nat := 0
  total_profit_usd : ℚ := 0
deriving DecidableEq

/-- Dict insertion into the open-position map: one binding per key. -/
def openPositionsInsert (m : List (String × Position)) (k : String) (v : Position) :
    List (String × Position) :=
  if (m.lookup k).isSome then m.map (fun p => if p.1 = k then (k, v) else p)
  else m ++ [(k, v)]

/-- The dry-run fill shared by _execute_ethereum_buy and _execute_solana_buy
(the_hand.py lines 393-413 and 437-457): a simulated price of 0.00001, the
whole USD amount converted to tokens, status OPEN, peak price seeded with
the entry price, then one update_current_price at the entry price. -/
def dryRunBuyPosition (idTag chainName txHash : String)
    (contract_address token_symbol : String) (amount_usd now : ℚ) : Position :=
  let p : Position :=
    { position_id := idTag ++ contract_address ++ "_" ++ toString now
      contract_address := contract_address
      chain := chainName
      token_symbol := token_symbol
      entry_time := now
      entry_price := 1 / 100000
      entry_amount_usd := amount_usd
      entry_amount_tokens := amount_usd / (1 / 100000)
      entry_tx_hash := some txHash
      status := TradeStatus.OPEN }
  let p1 := { p with peak_price := p.entry_price }
  p1.update_current_price p1.entry_price

/-- TheHand._execute_ethereum_buy (the_hand.py lines 385-427). -/
def executeEthereumBuy (cfg : HandConfig) (contract_address token_symbol : String)
    (amount_usd now : ℚ) : TradeResult :=
  if cfg.DRY_RUN_MODE then
    { success := true
      position := some (dryRunBuyPosition "eth_" "ethereum" "0xDRYRUN"
        contract_address token_symbol amount_usd now)
      tx_hash := some "0xDRYRUN" }
  else
    { success := false
      error_message := some "Real Ethereum trading not yet implemented (remove DRY_RUN_MODE)" }

/-- TheHand._execute_solana_buy (the_hand.py lines 429-464). -/
def executeSolanaBuy (cfg : HandConfig) (contract_address token_symbol : String)
    (amount_usd now : ℚ) : TradeResult :=
  if cfg.DRY_RUN_MODE then
    { success := true
      position := some (dryRunBuyPosition "sol_" "solana" "DRYRUN"
        contract_address token_symbol amount_usd now)
      tx_hash := some "DRYRUN" }
  else
    { success := false
      error_message := some "Real Solana trading not yet implemented (remove DRY_RUN_MODE)" }

/-- The position-tracking block of TheHand.execute_buy (the_hand.py lines
365-374): on a successful fill, record the position in the open-position
dict and bump total_trades; otherwise the state is untouched. -/
def trackBuyResult (st : HandState) (result : TradeResult) : TradeResult × HandState :=
  match result.position, result.success with
  | some pos, true =>
    (result,
     { st with
       open_positions := openPositionsInsert st.open_positions pos.position_id pos
       total_trades := st.total_trades + 1 })
  | _, _ => (result, st)

/-- TheHand.execute_buy (the_hand.py lines 319-383): reject at the position
ceiling before anything else; default the amount through Python's falsy `or`
(so an explicit 0 also falls back to the configured amount); route by chain;
track the position and bump total_trades only on a successful fill. -/
def executeBuy (cfg : HandConfig) (st : HandState)
    (contract_address chain token_symbol : String)
    (amount_usd : Option ℚ) (now : ℚ) : TradeResult × HandState :=
  if cfg.MAX_POSITIONS ≤ st.open_positions.length then
    ({ success := false
       error_message := some ("Maximum positions (" ++ toString cfg.MAX_POSITIONS ++ ") reached") },
     st)
  else
    let amount : ℚ :=
      match amount_usd with
      | none => cfg.TRADE_AMOUNT_USD
      | some a => if a = 0 then cfg.TRADE_AMOUNT_USD else a
    let result :=
      if pyLower chain = "ethereum" then
        executeEthereumBuy cfg contract_address token_symbol amount now
      else if pyLower chain = "solana" then
        executeSolanaBuy cfg contract_address token_symbol amount now
      else
        { success := false, error_message := some ("Unsupported chain: " ++ chain) }
    trackBuyResult st result

/-- The exit-condition cascade of TheHand.monitor_positions (the_hand.py
lines 590-607): profit target, then stop loss, then trailing stop, then time
limit; the first condition satisfied supplies the single exit reason. -/
def checkExitReason (cfg : HandConfig) (p : Position) (now : ℚ) : Option ExitReason :=
  if p.should_take_profit cfg.PROFIT_TARGET_PERCENT then some ExitReason.PROFIT_TARGET
  else if p.should_stop_loss cfg.STOP_LOSS_PERCENT then some ExitReason.STOP_LOSS
  else if p.should_trailing_stop cfg.TRAILING_STOP_PERCENT then some ExitReason.TRAILING_STOP
  else if p.should_time_exit cfg.MAX_HOLD_TIME_HOURS now then some ExitReason.TIME_LIMIT
  else none

/-- One body iteration of TheHand.monitor_positions for a single position
(the_hand.py lines 586-611): re-price the position, then run the exit
cascade on the updated position. -/
def monitorTick (cfg : HandConfig) (p : Position) (newPrice now : ℚ) :
    Position × Option ExitReason :=
  let p1 := p.update_current_price newPrice
  (p1, checkExitReason cfg p1 now)

end TheHand

namespace TheEar

/-- The weighted hype lexicon (the_ear.py, EarConfig.HYPE_KEYWORDS), in source
order. -/
def HYPE_KEYWORDS : List (String × ℚ) :=
  [("launch", 10), ("presale", 10), ("stealth launch", 15), ("fair launch", 12),
   ("moon", 8), ("100x", 10), ("1000x", 12), ("gem", 7), ("alpha", 9), ("call", 8),
   ("pump", 6), ("bullish", 5), ("buy now", 7), ("entry", 6), ("degen", 5),
   ("CA:", 15), ("contract", 12), ("0x", 10)]

/-- Substring containment on character lists, modelling Python's
`needle in text`. -/
def containsSub (needle : List Char) : List Char → Bool
  | [] => needle.isEmpty
  | c :: rest => needle.isPrefixOf (c :: rest) || containsSub needle rest

/-- Python str.isupper restricted to the ASCII letters the lexicon and the
bonus heuristic operate on: at least one letter, and every letter uppercase. -/
def pyIsUpper (w : String) : Bool :=
  w.toList.any (fun c => c.isAlpha) && w.toList.all (fun c => !c.isAlpha || c.isUpper)

/-- Sum of the matched keyword weights: the first accumulation loop of
TheEar._calculate_hype_score (the_ear.py lines 415-418). -/
def keywordScore (text : String) : ℚ :=
  (HYPE_KEYWORDS.map
    (fun kw => if containsSub (pyLower kw.1).toList (pyLower text).toList then kw.2 else 0)).sum

/-- Exclamation-mark bonus of _calculate_hype_score (the_ear.py lines 420-422):
two points per mark, capped at 10. -/
def exclamationBonus (text : String) : ℚ :=
  min (((text.toList.filter (fun c => c = '!')).length : ℚ) * 2) 10

/-- Emoji bonus of _calculate_hype_score (the_ear.py lines 424-426): one point
per character with codepoint above 127000, capped at 5. -/
def emojiBonus (text : String) : ℚ :=
  min (((text.toList.filter (fun c => 127000 < c.toNat)).length : ℚ)) 5

/-- ALL-CAPS-word bonus of _calculate_hype_score (the_ear.py lines 428-430):
three points per uppercase word longer than two characters, capped at 15.
`String.split` may yield empty pieces where Python's split() drops them, but
an empty piece fails the length test, so the count agrees. -/
def capsBonus (text : String) : ℚ :=
  min ((((text.split (fun c => c.isWhitespace)).filter
    (fun w => pyIsUpper w && decide (2 < w.length))).length : ℚ) * 3) 15

/-- TheEar._calculate_hype_score (the_ear.py lines 410-432): matched keyword
weights plus the three independently capped bonuses. -/
def calculateHypeScore (text : String) : ℚ :=
  keywordScore text + exclamationBonus text + emojiBonus text + capsBonus text

/-- A detected token signal (the_ear.py, dataclass TokenSignal). -/
structure TokenSignal where
  token_name : Option String := none
  contract_address : Option String := none
  chain : Option String := none
  source_platform : String := ""
  source_channel : String := ""
  message_text : String := ""
  timestamp : ℚ := 0
  hype_score : ℚ := 0
deriving DecidableEq

/-- The sort order used by TheEar.get_top_signals: hype score descending.
Python's sorted(key, reverse=True) is a stable sort, so ties keep the order
they have in `recent_signals`. -/
def hypeDescOrder (a b : TokenSignal) : Prop := b.hype_score ≤ a.hype_score

instance : DecidableRel hypeDescOrder :=
  fun a b => inferInstanceAs (Decidable (b.hype_score ≤ a.hype_score))

instance : IsTotal TokenSignal hypeDescOrder :=
  ⟨fun a b => le_total b.hype_score a.hype_score⟩

instance : IsTrans TokenSignal hypeDescOrder :=
  ⟨fun _ _ _ h1 h2 => le_trans h2 h1⟩

/-- TheEar.get_top_signals (the_ear.py lines 513-519): a stable descending
sort of the rolling window by hype score, truncated to the first `limit`
entries.  The stable sort is realised by insertion sort, which computes the
same list as any stable sort with the same comparison. -/
def getTopSignals (recent_signals : List TokenSignal) (limit : Nat) : List TokenSignal :=
  (List.insertionSort hypeDescOrder recent_signals).take limit

/-- The ordering the specification sentence asserts for get_top_signals:
hype score descending with ties broken by recency (most recent first).
This definition follows the claim's words, for comparison with the
source-derived `getTopSignals`. -/
def hypeThenRecencyOrder (a b : TokenSignal) : Prop :=
  b.hype_score < a.hype_score ∨ (b.hype_score = a.hype_score ∧ b.timestamp ≤ a.timestamp)

instance : DecidableRel hypeThenRecencyOrder := fun a b =>
  inferInstanceAs (Decidable (b.hype_score < a.hype_score ∨
    (b.hype_score = a.hype_score ∧ b.timestamp ≤ a.timestamp)))

/-- Top signals as the claim describes them: sorted by hype descending with
ties most-recent-first, truncated to the first `limit` entries. -/
def claimTopSignals (recent_signals : List TokenSignal) (limit : Nat) : List TokenSignal :=
  (List.insertionSort hypeThenRecencyOrder recent_signals).take limit

end TheEar

namespace PositionSizer

/-- Risk management limits (position_sizer.py, dataclass RiskLimits). -/
structure RiskLimits where
  max_position_size_percent : ℚ
  max_open_positions : Nat
  stop_loss_percent : ℚ
  take_profit_percent : ℚ
  daily_loss_limit_percent : ℚ
  max_trades_per_day : Nat
  min_trade_usd : ℚ
  max_trade_usd : ℚ
deriving DecidableEq

/-- The BALANCED limits (position_sizer.py lines 76-86), which the ADAPTIVE
strategy starts from. -/
def balancedLimits : RiskLimits :=
  { max_position_size_percent := 15 / 100
    max_open_positions := 4
    stop_loss_percent := 25 / 1000
    take_profit_percent := 4 / 100
    daily_loss_limit_percent := 8 / 100
    max_trades_per_day := 12
    min_trade_usd := 5
    max_trade_usd := 10000 }

/-- Performance-tracking state of AdaptivePositionSizer. -/
structure SizerState where
  total_trades : Nat := 0
  winning_streak : Nat := 0
  losing_streak : Nat := 0
  daily_pnl_percent : ℚ := 0
  trades_today : Nat := 0
deriving DecidableEq

/-- AdaptivePositionSizer._get_adaptive_percent (position_sizer.py lines
185-210): start from the 15% baseline; add min(15%, streak x 3%) only once
the winning streak reaches 3; otherwise subtract min(10%, streak x 5%) only
once the losing streak reaches 2; scale down when more than half the daily
loss limit is consumed; clamp to [5%, 30%]. -/
def getAdaptivePercent (limits : RiskLimits) (s : SizerState) : ℚ :=
  let base0 : ℚ := 15 / 100
  let base1 : ℚ :=
    if 3 ≤ s.winning_streak then
      base0 + min (15 / 100) ((s.winning_streak : ℚ) * (3 / 100))
    else if 2 ≤ s.losing_streak then
      base0 - min (10 / 100) ((s.losing_streak : ℚ) * (5 / 100))
    else base0
  let loss_proximity : ℚ := |s.daily_pnl_percent| / limits.daily_loss_limit_percent
  let base2 : ℚ :=
    if 1 / 2 < loss_proximity then base1 * (1 - loss_proximity * (3 / 10)) else base1
  max (5 / 100) (min (30 / 100) base2)

end PositionSizer

namespace Orchestrator

/-- The pipeline-level dedup key of HeistEngine._signal_processor
(heist_engine.py line 208): the f-string "address_timestamp"; Python prints a
missing address as "None". -/
def signalKey (s : TheEar.TokenSignal) : String :=
  (match s.contract_address with
   | some a => a
   | none => "None") ++ "_" ++ toString s.timestamp

/-- Result of one drain of the signal loop: the signals that were driven
through audit/buy this iteration, in order, and the processed-key set
afterwards (kept in insertion order in this model). -/
structure SignalStepResult where
  processedNow : List TheEar.TokenSignal
  processed : List String
deriving DecidableEq

/-- The per-signal body of HeistEngine._signal_processor (heist_engine.py
lines 206-221): skip a signal whose key is already processed, skip a signal
without a contract address, otherwise record the key and drive the signal
through the pipeline (audit then buy). -/
def processSignalsOnce : List TheEar.TokenSignal → List String → SignalStepResult
  | [], processed => { processedNow := [], processed := processed }
  | s :: rest, processed =>
    if signalKey s ∈ processed then processSignalsOnce rest processed
    else if s.contract_address = none then processSignalsOnce rest processed
    else
      let r := processSignalsOnce rest (processed ++ [signalKey s])
      { r with processedNow := s :: r.processedNow }

/-- The trim of the processed set (heist_engine.py lines 224-225):
`set(list(self.processed_signals)[-1000:])`.  `enum` is the arbitrary
enumeration CPython's set iteration produces; the trim keeps the last 1000
entries of that enumeration. -/
def trimProcessed (enum : List String) : List String :=
  if 1000 < enum.length then enum.drop (enum.length - 1000) else enum

/-- The trim the specification sentence asserts: the most recent 1000 keys,
that is, the last 1000 in insertion order.  This definition follows the
claim's words, for comparison with the source-derived `trimProcessed`. -/
def mostRecentKeys (insertionOrdered : List String) : List String :=
  insertionOrdered.drop (insertionOrdered.length - 1000)

end Orchestrator

namespace TheEye

/-- C1: for every ContractAudit run through the safety-scoring step, if any
SecurityCheck has passed = false and severity = CRITICAL, the audit's
is_safe flag is false, no matter how high the aggregate safety score is. -/
theorem c1_critical_failure_blocks_safe (cfg : EyeConfig) (audit : ContractAudit)
    (h : ∃ c ∈ audit.checks, c.passed = false ∧ c.severity = RiskLevel.CRITICAL) :
    (calculateSafetyScore cfg audit).is_safe = false := by
  obtain ⟨c, hc, hpass, hsev⟩ := h
  have hne : audit.checks ≠ [] := by
    rintro hnil
    rw [hnil] at hc
    exact List.not_mem_nil c hc
  have hmem : c ∈ audit.checks.filter
      (fun check => !check.passed && check.severity == RiskLevel.CRITICAL) := by
    rw [List.mem_filter]
    refine ⟨hc, ?_⟩
    simp [hpass, hsev]
  have hlen : (audit.checks.filter
      (fun check => !check.passed && check.severity == RiskLevel.CRITICAL)).length ≠ 0 := by
    intro h0
    rw [List.length_eq_zero] at h0
    rw [h0] at hmem
    exact List.not_mem_nil c hmem
  unfold calculateSafetyScore
  rw [if_neg hne]
  simp [hlen]

/-- Concrete audit exercising C1: one failed CRITICAL check next to a perfect
check, with every check score at 100. -/
def c1AuditInput : ContractAudit :=
  { contract_address := "0xabc"
    chain := "ethereum"
    checks :=
      [{ name := "Honeypot Check", passed := false, score := 100,
         details := "HONEYPOT DETECTED", severity := RiskLevel.CRITICAL },
       { name := "Contract Existence", passed := true, score := 100,
         details := "Contract code verified", severity := RiskLevel.LOW }]
    is_honeypot := false }

/-- Witness for C1: the concrete audit scores a perfect 100 aggregate, yet the
failed CRITICAL check forces is_safe = false. -/
theorem c1_witness :
    (calculateSafetyScore {} c1AuditInput).is_safe = false ∧
    (calculateSafetyScore {} c1AuditInput).safety_score = 100 :=
  ⟨c1_critical_failure_blocks_safe {} c1AuditInput (by decide),
   by norm_num [calculateSafetyScore, c1AuditInput, List.cons_ne_nil]⟩

end TheEye

namespace TheHand

/-- C6: after update_current_price, for a position with positive entry
amount, profit_loss_percent equals (current_value_usd / entry_amount_usd - 1)
x 100. -/
theorem c6_pl_percent_formula (p : Position) (price : ℚ)
    (h : 0 < p.entry_amount_usd) :
    (p.update_current_price price).profit_loss_percent =
      ((p.update_current_price price).current_value_usd / p.entry_amount_usd - 1) * 100 := by
  simp [Position.update_current_price, if_pos h]

/-- Concrete position exercising C6: entry $100 for 100 tokens. -/
def c6Position : Position :=
  { position_id := "eth_0xabc_0"
    contract_address := "0xabc"
    chain := "ethereum"
    token_symbol := "TKN"
    entry_amount_usd := 100
    entry_amount_tokens := 100 }

/-- Witness for C6: entry $100, price 1.5 gives current value $150 and a P&L
of exactly +50%. -/
theorem c6_witness :
    c6Position.entry_amount_usd = 100 ∧
    (c6Position.update_current_price (3 / 2)).current_value_usd = 150 ∧
    (c6Position.update_current_price (3 / 2)).profit_loss_percent =
      ((c6Position.update_current_price (3 / 2)).current_value_usd /
        c6Position.entry_amount_usd - 1) * 100 ∧
    (c6Position.update_current_price (3 / 2)).profit_loss_percent = 50 :=
  ⟨rfl, by norm_num [c6Position, Position.update_current_price],
   c6_pl_percent_formula c6Position (3 / 2) (by norm_num [c6Position]),
   by norm_num [c6Position, Position.update_current_price]⟩

/-- C10: the P&L and trailing-stop computations are total: a zero entry
amount makes update_current_price set profit_loss_percent to 0 through its
guard, and should_trailing_stop returns false whenever the peak price is
non-positive instead of dividing by the peak. -/
theorem c10_division_guards :
    (∀ (p : Position) (price : ℚ), p.entry_amount_usd = 0 →
      (p.update_current_price price).profit_loss_percent = 0) ∧
    (∀ (p : Position) (trailing : ℚ), p.peak_price ≤ 0 →
      p.should_trailing_stop trailing = false) := by
  constructor
  · intro p price h
    simp [Position.update_current_price, h]
  · intro p trailing h
    simp [Position.should_trailing_stop, h]

/-- Concrete position exercising C10: zero entry amount and zero peak. -/
def c10Position : Position :=
  { position_id := "eth_0xdef_0"
    contract_address := "0xdef"
    chain := "ethereum"
    token_symbol := "ZRO"
    entry_amount_usd := 0
    peak_price := 0 }

/-- Witness for C10 at the concrete zero-entry, zero-peak position. -/
theorem c10_witness :
    (c10Position.update_current_price 7).profit_loss_percent = 0 ∧
    c10Position.should_trailing_stop 20 = false :=
  ⟨c10_division_guards.1 c10Position 7 rfl,
   c10_division_guards.2 c10Position 20 (by norm_num [c10Position])⟩

/-- C3: the monitoring loop tests exit conditions in the fixed order profit
target, stop loss, trailing stop, max hold time, and the close records
exactly the first satisfied condition; in particular a position meeting both
the profit-target and stop-loss thresholds never exits with STOP_LOSS. -/
theorem c3_exit_priority (cfg : HandConfig) (p : Position) (now : ℚ) :
    (p.should_take_profit cfg.PROFIT_TARGET_PERCENT = true →
      checkExitReason cfg p now = some ExitReason.PROFIT_TARGET) ∧
    (p.should_take_profit cfg.PROFIT_TARGET_PERCENT = false →
      p.should_stop_loss cfg.STOP_LOSS_PERCENT = true →
      checkExitReason cfg p now = some ExitReason.STOP_LOSS) ∧
    (p.should_take_profit cfg.PROFIT_TARGET_PERCENT = false →
      p.should_stop_loss cfg.STOP_LOSS_PERCENT = false →
      p.should_trailing_stop cfg.TRAILING_STOP_PERCENT = true →
      checkExitReason cfg p now = some ExitReason.TRAILING_STOP) ∧
    (p.should_take_profit cfg.PROFIT_TARGET_PERCENT = false →
      p.should_stop_loss cfg.STOP_LOSS_PERCENT = false →
      p.should_trailing_stop cfg.TRAILING_STOP_PERCENT = false →
      p.should_time_exit cfg.MAX_HOLD_TIME_HOURS now = true →
      checkExitReason cfg p now = some ExitReason.TIME_LIMIT) ∧
    (p.should_take_profit cfg.PROFIT_TARGET_PERCENT = false →
      p.should_stop_loss cfg.STOP_LOSS_PERCENT = false →
      p.should_trailing_stop cfg.TRAILING_STOP_PERCENT = false →
      p.should_time_exit cfg.MAX_HOLD_TIME_HOURS now = false →
      checkExitReason cfg p now = none) ∧
    (p.should_take_profit cfg.PROFIT_TARGET_PERCENT = true →
      p.should_stop_loss cfg.STOP_LOSS_PERCENT = true →
      checkExitReason cfg p now ≠ some ExitReason.STOP_LOSS) := by
  refine ⟨?_, ?_, ?_, ?_, ?_, ?_⟩ <;> intros <;> simp_all [checkExitReason]

/-- Configuration exercising C3: a 0% profit target and a 0% stop loss make
both thresholds hold simultaneously at a flat P&L. -/
def c3Config : HandConfig := { PROFIT_TARGET_PERCENT := 0, STOP_LOSS_PERCENT := 0 }

/-- Concrete position exercising C3, sitting exactly at 0% P&L. -/
def c3Position : Position :=
  { position_id := "eth_0xaaa_0"
    contract_address := "0xaaa"
    chain := "ethereum"
    token_symbol := "FLT"
    entry_amount_usd := 10
    profit_loss_percent := 0 }

/-- Witness for C3: at the concrete flat position both the profit-target and
stop-loss thresholds are met, and the recorded reason is PROFIT_TARGET. -/
theorem c3_witness :
    c3Position.should_take_profit c3Config.PROFIT_TARGET_PERCENT = true ∧
    c3Position.should_stop_loss c3Config.STOP_LOSS_PERCENT = true ∧
    checkExitReason c3Config c3Position 0 = some ExitReason.PROFIT_TARGET ∧
    checkExitReason c3Config c3Position 0 ≠ some ExitReason.STOP_LOSS :=
  ⟨by decide, by decide,
   (c3_exit_priority c3Config c3Position 0).1 (by decide),
   (c3_exit_priority c3Config c3Position 0).2.2.2.2.2 (by decide) (by decide)⟩

end TheHand

namespace TheEar

/-- C8: each hype-score bonus category is bounded by its fixed cap (10 for
exclamation marks, 5 for emojis, 15 for ALL-CAPS words), so the hype score
lies between the matched keyword weight sum and that sum plus 30, regardless
of input length or pattern repetition. -/
theorem c8_hype_bonuses_bounded (text : String) :
    exclamationBonus text ≤ 10 ∧ emojiBonus text ≤ 5 ∧ capsBonus text ≤ 15 ∧
    keywordScore text ≤ calculateHypeScore text ∧
    calculateHypeScore text ≤ keywordScore text + 30 := by
  have h1 : exclamationBonus text ≤ 10 := min_le_right _ _
  have h2 : emojiBonus text ≤ 5 := min_le_right _ _
  have h3 : capsBonus text ≤ 15 := min_le_right _ _
  have h1n : 0 ≤ exclamationBonus text := le_min (by positivity) (by norm_num)
  have h2n : 0 ≤ emojiBonus text := le_min (Nat.cast_nonneg _) (by norm_num)
  have h3n : 0 ≤ capsBonus text := le_min (by positivity) (by norm_num)
  refine ⟨h1, h2, h3, ?_, ?_⟩ <;> · unfold calculateHypeScore; linarith

end TheEar

namespace PositionSizer

/-- Clamping to [5%, 30%] is the identity on values already inside the band. -/
theorem clamp_eq_self (x : ℚ) (h1 : 5 / 100 ≤ x) (h2 : x ≤ 30 / 100) :
    max (5 / 100) (min (30 / 100) x) = x := by
  rw [min_eq_right h2, max_eq_right h1]

/-- C7 (amended): with the daily P&L at most half the daily-loss ceiling,
the adaptive base percent equals 15% + min(15pp, n x 3pp) once the winning
streak reaches 3, equals 15% - min(10pp, n x 5pp) once the losing streak
reaches 2, and stays at the 15% baseline for shorter streaks; it always lies
within the [5%, 30%] strategy band. -/
theorem c7_adaptive_percent (limits : RiskLimits) (s : SizerState)
    (_hlim : 0 < limits.daily_loss_limit_percent)
    (hfar : |s.daily_pnl_percent| / limits.daily_loss_limit_percent ≤ 1 / 2) :
    (3 ≤ s.winning_streak →
      getAdaptivePercent limits s =
        15 / 100 + min (15 / 100) ((s.winning_streak : ℚ) * (3 / 100))) ∧
    (s.winning_streak < 3 → 2 ≤ s.losing_streak →
      getAdaptivePercent limits s =
        15 / 100 - min (10 / 100) ((s.losing_streak : ℚ) * (5 / 100))) ∧
    (s.winning_streak < 3 → s.losing_streak < 2 →
      getAdaptivePercent limits s = 15 / 100) ∧
    (5 / 100 ≤ getAdaptivePercent limits s ∧ getAdaptivePercent limits s ≤ 30 / 100) := by
  have hnp : ¬(1 / 2 < |s.daily_pnl_percent| / limits.daily_loss_limit_percent) :=
    not_lt.mpr hfar
  simp only [getAdaptivePercent, hnp, if_false, ite_false]
  refine ⟨?_, ?_, ?_, le_max_left _ _, max_le (by norm_num) (min_le_left _ _)⟩
  · intro hw
    rw [if_pos hw]
    have h0 : 0 ≤ min ((15 : ℚ) / 100) ((s.winning_streak : ℚ) * (3 / 100)) :=
      le_min (by norm_num) (by positivity)
    have h15 : min ((15 : ℚ) / 100) ((s.winning_streak : ℚ) * (3 / 100)) ≤ 15 / 100 :=
      min_le_left _ _
    exact clamp_eq_self _ (by linarith) (by linarith)
  · intro hw hl
    rw [if_neg (not_le.mpr hw), if_pos hl]
    have h0 : 0 ≤ min ((10 : ℚ) / 100) ((s.losing_streak : ℚ) * (5 / 100)) :=
      le_min (by norm_num) (by positivity)
    have h10 : min ((10 : ℚ) / 100) ((s.losing_streak : ℚ) * (5 / 100)) ≤ 10 / 100 :=
      min_le_left _ _
    exact clamp_eq_self _ (by linarith) (by linarith)
  · intro hw hl
    rw [if_neg (not_le.mpr hw), if_neg (not_le.mpr hl)]
    exact clamp_eq_self _ (by norm_num) (by norm_num)

/-- Sizer state after exactly one win, the daily P&L flat. -/
def c7OneWinState : SizerState := { winning_streak := 1 }

/-- Counterexample for C7 as stated: after 1 consecutive win (daily loss far
from the ceiling) the adaptive percent is still the 15% baseline, not the
claimed baseline + min(15pp, 1 x 3pp) = 18%; the streak bonus only starts at
3 consecutive wins. -/
theorem c7_counterexample :
    getAdaptivePercent balancedLimits c7OneWinState = 15 / 100 ∧
    (15 : ℚ) / 100 ≠ 15 / 100 + min ((15 : ℚ) / 100) ((1 : ℚ) * (3 / 100)) := by
  constructor
  · norm_num [getAdaptivePercent, c7OneWinState, balancedLimits, min_def, max_def]
  · norm_num [min_def]

/-- Sizer state after exactly three wins, the daily P&L flat. -/
def c7ThreeWinState : SizerState := { winning_streak := 3 }

/-- Witness for C7 (amended): after exactly 3 consecutive wins the adaptive
base percent is 9 percentage points over the 15% baseline. -/
theorem c7_witness :
    getAdaptivePercent balancedLimits c7ThreeWinState = 15 / 100 + 9 / 100 := by
  have h :=
    (c7_adaptive_percent balancedLimits c7ThreeWinState
      (by norm_num [balancedLimits])
      (by norm_num [c7ThreeWinState, balancedLimits])).1
      (by norm_num [c7ThreeWinState])
  rw [h]
  norm_num [c7ThreeWinState, min_def]

end PositionSizer

namespace TheHand

/-- Inserting into the open-position dict grows it by at most one binding. -/
theorem openPositionsInsert_length_le (m : List (String × Position)) (k : String) (v : Position) :
    (openPositionsInsert m k v).length ≤ m.length + 1 := by
  unfold openPositionsInsert
  split
  · rw [List.length_map]; omega
  · rw [List.length_append]; simp

/-- Tracking a buy result adds at most one open position. -/
theorem trackBuyResult_open_length_le (st : HandState) (result : TradeResult) :
    ((trackBuyResult st result).2).open_positions.length ≤ st.open_positions.length + 1 := by
  unfold trackBuyResult
  split
  · exact openPositionsInsert_length_le _ _ _
  · simp

/-- C2: a buy issued while the open-position count is at (or beyond) the
configured ceiling returns a failure TradeResult carrying the explicit
reason message and leaves the whole trading state unchanged; consequently a
buy never pushes the open-position count above the ceiling. -/
theorem c2_buy_rejected_at_ceiling (cfg : HandConfig) (st : HandState)
    (contract_address chain token_symbol : String) (amount_usd : Option ℚ) (now : ℚ) :
    (cfg.MAX_POSITIONS ≤ st.open_positions.length →
      executeBuy cfg st contract_address chain token_symbol amount_usd now =
        ({ success := false
           error_message :=
             some ("Maximum positions (" ++ toString cfg.MAX_POSITIONS ++ ") reached") },
         st)) ∧
    (st.open_positions.length ≤ cfg.MAX_POSITIONS →
      ((executeBuy cfg st contract_address chain token_symbol amount_usd now).2).open_positions.length
        ≤ cfg.MAX_POSITIONS) := by
  constructor
  · intro h
    unfold executeBuy
    rw [if_pos h]
  · intro h
    unfold executeBuy
    split
    · exact h
    next hceil =>
      have hlt : st.open_positions.length < cfg.MAX_POSITIONS := by omega
      exact le_trans (trackBuyResult_open_length_le st _) (by omega)

/-- Configuration exercising C2: a position ceiling of zero, so any state is
already at capacity. -/
def c2Config : HandConfig := { MAX_POSITIONS := 0 }

/-- Witness for C2: at the zero ceiling the very first buy is rejected with
the reason message and the empty state is returned untouched. -/
theorem c2_witness :
    executeBuy c2Config {} "0xabc" "ethereum" "TKN" none 0 =
      ({ success := false
         error_message :=
           some ("Maximum positions (" ++ toString c2Config.MAX_POSITIONS ++ ") reached") },
       ({} : HandState)) :=
  (c2_buy_rejected_at_ceiling c2Config {} "0xabc" "ethereum" "TKN" none 0).1
    (by simp [c2Config])

end TheHand

namespace TheEye

/-- Looking up the just-inserted key returns the inserted audit. -/
theorem lookup_cacheInsert (cache : AuditCache) (k : String × String) (v : ContractAudit) :
    (cacheInsert cache k v).lookup k = some v := by
  unfold cacheInsert
  simp [List.lookup]

/-- The scoring step never touches the audit's timestamp. -/
theorem calculateSafetyScore_timestamp (cfg : EyeConfig) (a : ContractAudit) :
    (calculateSafetyScore cfg a).timestamp = a.timestamp := by
  unfold calculateSafetyScore
  split <;> rfl

/-- C4: with simulation off, after a completed (cache-missing, supported
chain) audit at time t1, a second audit_contract call for the same
(chain, address) at any time t2 with t2 - t1 < 300 seconds returns exactly
the cached ContractAudit, leaves the cache unchanged, and issues zero
collaborator calls.  The timestamp-preservation hypotheses record that the
chain analyzers never write the audit timestamp, as in the source. -/
theorem c4_cache_hit_within_ttl (cfg : EyeConfig)
    (simulateAudit : String → String → ContractAudit)
    (analyzeEthereum analyzeSolana : ContractAudit → ContractAudit × Nat)
    (cache : AuditCache) (contract_address chain : String) (t1 t2 : ℚ)
    (hsim : cfg.SIMULATION_MODE = false)
    (hmiss : cache.lookup (chain, contract_address) = none)
    (hchain : pyLower chain = "ethereum" ∨ pyLower chain = "solana")
    (heth : ∀ a, ((analyzeEthereum a).1).timestamp = a.timestamp)
    (hsol : ∀ a, ((analyzeSolana a).1).timestamp = a.timestamp)
    (hage : t2 - t1 < 300) :
    auditContract cfg simulateAudit analyzeEthereum analyzeSolana
        (auditContract cfg simulateAudit analyzeEthereum analyzeSolana
          cache contract_address chain t1).cache contract_address chain t2 =
      { audit := (auditContract cfg simulateAudit analyzeEthereum analyzeSolana
          cache contract_address chain t1).audit,
        cache := (auditContract cfg simulateAudit analyzeEthereum analyzeSolana
          cache contract_address chain t1).cache,
        collaboratorCalls := 0 } := by
  rcases hchain with hc | hc
  · have hts : (calculateSafetyScore cfg
        (analyzeEthereum (freshAudit contract_address chain t1)).1).timestamp = t1 := by
      rw [calculateSafetyScore_timestamp, heth]
      rfl
    have h1 : auditContract cfg simulateAudit analyzeEthereum analyzeSolana
        cache contract_address chain t1 =
        { audit := calculateSafetyScore cfg
            (analyzeEthereum (freshAudit contract_address chain t1)).1,
          cache := cacheInsert cache (chain, contract_address)
            (calculateSafetyScore cfg
              (analyzeEthereum (freshAudit contract_address chain t1)).1),
          collaboratorCalls := (analyzeEthereum (freshAudit contract_address chain t1)).2 } := by
      simp only [auditContract, hsim, hmiss, hc]
      simp
    rw [h1]
    simp only [auditContract, hsim]
    rw [lookup_cacheInsert]
    simp [hts, hage]
  · have hts : (calculateSafetyScore cfg
        (analyzeSolana (freshAudit contract_address chain t1)).1).timestamp = t1 := by
      rw [calculateSafetyScore_timestamp, hsol]
      rfl
    have hne : pyLower chain ≠ "ethereum" := by
      rw [hc]
      decide
    have h1 : auditContract cfg simulateAudit analyzeEthereum analyzeSolana
        cache contract_address chain t1 =
        { audit := calculateSafetyScore cfg
            (analyzeSolana (freshAudit contract_address chain t1)).1,
          cache := cacheInsert cache (chain, contract_address)
            (calculateSafetyScore cfg
              (analyzeSolana (freshAudit contract_address chain t1)).1),
          collaboratorCalls := (analyzeSolana (freshAudit contract_address chain t1)).2 } := by
      simp only [auditContract, hsim, hmiss, hne, hc]
      simp
    rw [h1]
    simp only [auditContract, hsim]
    rw [lookup_cacheInsert]
    simp [hts, hage]

/-- Concrete chain analyzer exercising C4: one passing check, a non-honeypot
verdict, three collaborator calls. -/
def c4Analyzer : ContractAudit → ContractAudit × Nat := fun a =>
  ({ a with
     checks := [{ name := "Contract Existence", passed := true, score := 100,
                  details := "Contract code verified", severity := RiskLevel.LOW }],
     is_honeypot := false }, 3)

/-- Concrete simulation oracle exercising C4 (unused when simulation is off). -/
def c4Sim : String → String → ContractAudit := fun addr chainName =>
  { contract_address := addr, chain := chainName }

/-- First audit outcome of the C4 scenario: empty cache, ethereum, time 0. -/
def c4FirstOutcome : AuditOutcome :=
  auditContract {} c4Sim c4Analyzer c4Analyzer [] "0xabc" "ethereum" 0

/-- Witness for C4: re-auditing the same (chain, address) 100 seconds after
the first completed audit returns the identical audit, the same cache, and
zero collaborator calls. -/
theorem c4_witness :
    auditContract {} c4Sim c4Analyzer c4Analyzer c4FirstOutcome.cache "0xabc" "ethereum" 100 =
      { audit := c4FirstOutcome.audit,
        cache := c4FirstOutcome.cache,
        collaboratorCalls := 0 } :=
  c4_cache_hit_within_ttl {} c4Sim c4Analyzer c4Analyzer [] "0xabc" "ethereum" 0 100
    rfl rfl (Or.inl rfl) (fun _ => rfl) (fun _ => rfl) (by norm_num)

end TheEye

namespace TheEar

/-- C9 (amended): get_top_signals returns the window sorted by hype score
descending with ties kept in the window's insertion (chronological,
oldest-first) order, truncated to the first N entries: the result is sorted,
draws only from the window, has length min N (window length), and any
equal-hype pair keeps its original relative order in the untruncated sort. -/
theorem c9_top_signals_sorted (l : List TokenSignal) (n : Nat) :
    (getTopSignals l n).Sorted hypeDescOrder ∧
    (∀ s ∈ getTopSignals l n, s ∈ l) ∧
    (getTopSignals l n).length = min n l.length ∧
    (∀ a b : TokenSignal, a.hype_score = b.hype_score → List.Sublist [a, b] l →
      List.Sublist [a, b] (getTopSignals l l.length)) := by
  refine ⟨?_, ?_, ?_, ?_⟩
  · exact (List.sorted_insertionSort hypeDescOrder l).sublist
      (List.take_sublist n _)
  · intro s hs
    exact (List.mem_insertionSort hypeDescOrder).mp (List.take_subset n _ hs)
  · unfold getTopSignals
    rw [List.length_take, List.length_insertionSort]
  · intro a b hab hsub
    unfold getTopSignals
    rw [List.take_of_length_le (le_of_eq (List.length_insertionSort hypeDescOrder l))]
    exact List.pair_sublist_insertionSort hab.symm.le hsub

/-- The earlier of two equal-hype signals in the C9 scenario. -/
def c9SigOld : TokenSignal :=
  { source_platform := "telegram", source_channel := "alpha", timestamp := 0, hype_score := 50 }

/-- The later of two equal-hype signals in the C9 scenario. -/
def c9SigNew : TokenSignal :=
  { source_platform := "telegram", source_channel := "alpha", timestamp := 1, hype_score := 50 }

/-- Counterexample for C9 as stated: on two equal-hype signals the stable
sort of get_top_signals keeps the older signal first, while the claimed
ties-by-recency order would put the newer signal first; the two orders
disagree on this window. -/
theorem c9_counterexample :
    getTopSignals [c9SigOld, c9SigNew] 2 = [c9SigOld, c9SigNew] ∧
    claimTopSignals [c9SigOld, c9SigNew] 2 = [c9SigNew, c9SigOld] ∧
    getTopSignals [c9SigOld, c9SigNew] 2 ≠ claimTopSignals [c9SigOld, c9SigNew] 2 := by
  refine ⟨?_, ?_, ?_⟩ <;> decide

/-- Witness for C9 (amended), at the concrete two-signal window: the result
is sorted, its members come from the window, and it has length
min 2 (window length). -/
theorem c9_witness :
    (getTopSignals [c9SigOld, c9SigNew] 2).Sorted hypeDescOrder ∧
    c9SigOld ∈ [c9SigOld, c9SigNew] ∧
    (getTopSignals [c9SigOld, c9SigNew] 2).length = min 2 [c9SigOld, c9SigNew].length :=
  ⟨(c9_top_signals_sorted [c9SigOld, c9SigNew] 2).1,
   (c9_top_signals_sorted [c9SigOld, c9SigNew] 2).2.1 c9SigOld (by decide),
   (c9_top_signals_sorted [c9SigOld, c9SigNew] 2).2.2.1⟩

end TheEar

namespace Orchestrator

/-- Keys already processed stay in the processed set across one drain. -/
theorem processSignalsOnce_processed_mono :
    ∀ (signals : List TheEar.TokenSignal) (processed : List String) (k : String),
      k ∈ processed → k ∈ (processSignalsOnce signals processed).processed
  | [], _, _, hk => hk
  | s0 :: rest, processed, k, hk => by
    simp only [processSignalsOnce]
    by_cases h1 : signalKey s0 ∈ processed
    · rw [if_pos h1]
      exact processSignalsOnce_processed_mono rest processed k hk
    · rw [if_neg h1]
      by_cases h2 : s0.contract_address = none
      · rw [if_pos h2]
        exact processSignalsOnce_processed_mono rest processed k hk
      · rw [if_neg h2]
        exact processSignalsOnce_processed_mono rest (processed ++ [signalKey s0]) k
          (List.mem_append_left _ hk)

/-- A signal driven through the pipeline in one drain had a fresh key: its
key was not in the processed set at the start of the drain. -/
theorem processSignalsOnce_fresh :
    ∀ (signals : List TheEar.TokenSignal) (processed : List String) (s : TheEar.TokenSignal),
      s ∈ (processSignalsOnce signals processed).processedNow → signalKey s ∉ processed
  | [], processed, s, hs => by simp [processSignalsOnce] at hs
  | s0 :: rest, processed, s, hs => by
    simp only [processSignalsOnce] at hs
    by_cases h1 : signalKey s0 ∈ processed
    · rw [if_pos h1] at hs
      exact processSignalsOnce_fresh rest processed s hs
    · rw [if_neg h1] at hs
      by_cases h2 : s0.contract_address = none
      · rw [if_pos h2] at hs
        exact processSignalsOnce_fresh rest processed s hs
      · rw [if_neg h2] at hs
        rcases List.mem_cons.mp hs with rfl | hmem
        · exact h1
        · intro hk
          exact processSignalsOnce_fresh rest (processed ++ [signalKey s0]) s hmem
            (List.mem_append_left _ hk)

/-- The signals driven through the pipeline in one drain have pairwise
distinct keys: no key is audited or bought twice within a drain. -/
theorem processSignalsOnce_keys_distinct :
    ∀ (signals : List TheEar.TokenSignal) (processed : List String),
      (processSignalsOnce signals processed).processedNow.Pairwise
        (fun a b => signalKey a ≠ signalKey b)
  | [], processed => by simp [processSignalsOnce]
  | s0 :: rest, processed => by
    simp only [processSignalsOnce]
    by_cases h1 : signalKey s0 ∈ processed
    · rw [if_pos h1]
      exact processSignalsOnce_keys_distinct rest processed
    · rw [if_neg h1]
      by_cases h2 : s0.contract_address = none
      · rw [if_pos h2]
        exact processSignalsOnce_keys_distinct rest processed
      · rw [if_neg h2]
        refine List.Pairwise.cons ?_
          (processSignalsOnce_keys_distinct rest (processed ++ [signalKey s0]))
        intro b hb heq
        apply processSignalsOnce_fresh rest (processed ++ [signalKey s0]) b hb
        rw [← heq]
        exact List.mem_append_right _ (List.mem_singleton_self _)

/-- Every signal driven through the pipeline has its key recorded in the
processed set at the end of the drain, so later drains skip it. -/
theorem processSignalsOnce_key_recorded :
    ∀ (signals : List TheEar.TokenSignal) (processed : List String) (s : TheEar.TokenSignal),
      s ∈ (processSignalsOnce signals processed).processedNow →
      signalKey s ∈ (processSignalsOnce signals processed).processed
  | [], processed, s, hs => by simp [processSignalsOnce] at hs
  | s0 :: rest, processed, s, hs => by
    simp only [processSignalsOnce] at hs ⊢
    by_cases h1 : signalKey s0 ∈ processed
    · rw [if_pos h1] at hs ⊢
      exact processSignalsOnce_key_recorded rest processed s hs
    · rw [if_neg h1] at hs ⊢
      by_cases h2 : s0.contract_address = none
      · rw [if_pos h2] at hs ⊢
        exact processSignalsOnce_key_recorded rest processed s hs
      · rw [if_neg h2] at hs ⊢
        rcases List.mem_cons.mp hs with rfl | hmem
        · exact processSignalsOnce_processed_mono rest (processed ++ [signalKey s]) _
            (List.mem_append_right _ (List.mem_singleton_self _))
        · exact processSignalsOnce_key_recorded rest (processed ++ [signalKey s0]) s hmem

/-- C5 (amended): in one drain of the signal loop, a signal whose key is
already processed is skipped (every signal driven through audit/buy had a
fresh key, keys within a drain are pairwise distinct, and every processed
signal's key is recorded for later drains); when the processed set exceeds
1000 entries it is trimmed to 1000 of its entries, chosen by the set's
arbitrary iteration order - a subset of the existing keys, but not
necessarily the most recent ones. -/
theorem c5_signal_dedup (signals : List TheEar.TokenSignal) (processed : List String) :
    (∀ s ∈ (processSignalsOnce signals processed).processedNow, signalKey s ∉ processed) ∧
    (processSignalsOnce signals processed).processedNow.Pairwise
      (fun a b => signalKey a ≠ signalKey b) ∧
    (∀ s ∈ (processSignalsOnce signals processed).processedNow,
      signalKey s ∈ (processSignalsOnce signals processed).processed) ∧
    (∀ enum : List String, 1000 < enum.length → (trimProcessed enum).length = 1000) ∧
    (∀ enum : List String, ∀ k ∈ trimProcessed enum, k ∈ enum) := by
  refine ⟨fun s hs => processSignalsOnce_fresh signals processed s hs,
    processSignalsOnce_keys_distinct signals processed,
    fun s hs => processSignalsOnce_key_recorded signals processed s hs,
    ?_, ?_⟩
  · intro enum h
    unfold trimProcessed
    rw [if_pos h, List.length_drop]
    omega
  · intro enum k hk
    unfold trimProcessed at hk
    split at hk
    · exact List.drop_subset _ _ hk
    · exact hk

/-- Numbered key used in the C5 trimming counterexample; key i was inserted
i-th, so larger i means more recent. -/
def c5KeyName (i : Nat) : String := "k" ++ toString i

/-- The processed keys in insertion order: k0 (oldest) .. k1000 (newest). -/
def c5InsertionOrder : List String := (List.range 1001).map c5KeyName

/-- A legal CPython set enumeration of the same 1001 keys that happens to
yield the newest key first. -/
def c5AdversarialEnum : List String := c5KeyName 1000 :: (List.range 1000).map c5KeyName

set_option maxRecDepth 100000 in
/-- Counterexample for C5 as stated: the trim keeps the last 1000 entries of
the set's arbitrary enumeration, not the most recent 1000 keys.  Under a
legal enumeration of the same 1001-key set, the code's trim keeps the oldest
key k0 and drops the newest key k1000, while the claimed most-recent-1000
trim does exactly the opposite. -/
theorem c5_counterexample :
    c5AdversarialEnum.Perm c5InsertionOrder ∧
    c5KeyName 0 ∈ trimProcessed c5AdversarialEnum ∧
    c5KeyName 0 ∉ mostRecentKeys c5InsertionOrder ∧
    c5KeyName 1000 ∉ trimProcessed c5AdversarialEnum ∧
    c5KeyName 1000 ∈ mostRecentKeys c5InsertionOrder := by
  refine ⟨?_, ?_, ?_, ?_, ?_⟩
  · unfold c5AdversarialEnum c5InsertionOrder
    rw [List.range_succ, List.map_append]
    exact (List.perm_append_singleton _ _).symm
  · decide
  · decide
  · decide
  · decide

/-- Signal with an address, used in the C5 witness. -/
def c5SigA : TheEar.TokenSignal :=
  { contract_address := some "0xaaa", chain := some "ethereum",
    source_platform := "telegram", timestamp := 0, hype_score := 80 }

/-- Witness for C5 (amended): draining the same signal twice in one batch
processes it exactly once (its key was fresh), and the keys driven through
the pipeline are pairwise distinct. -/
theorem c5_witness :
    c5SigA ∈ (processSignalsOnce [c5SigA, c5SigA] []).processedNow ∧
    signalKey c5SigA ∉ ([] : List String) ∧
    (processSignalsOnce [c5SigA, c5SigA] []).processedNow.Pairwise
      (fun a b => signalKey a ≠ signalKey b) :=
  ⟨by decide, (c5_signal_dedup [c5SigA, c5SigA] []).1 c5SigA (by decide),
   (c5_signal_dedup [c5SigA, c5SigA] []).2.1⟩

end Orchestrator
